import Mathlib

/-!
Verification of the nap_msg RPC dispatcher (src/nap_msg/rpc.py) and the
Tencent-Cloud TC3 request signer / speech-recognition call
(src/nap_msg/asr.py), as a shallow embedding in Lean 4.

Modelling conventions:
- JSON values produced by json.loads are modelled by `JVal`.  A Python
  `None` and a JSON `null` are both `JVal.null` (the code never
  distinguishes them).  JSON numbers are modelled as integers, which is
  enough for every property considered here.
- Python exceptions that matter to the dispatcher are modelled by `PyExc`;
  the `msg` field is what `str(exc)` yields.
- Standard-library and third-party collaborators (hashlib, hmac, datetime
  strftime, base64, json.dumps, builtins.str, the napcat relay client, the
  watch module, httpx) are external to the repository and are modelled as
  abstract function parameters (`Crypto`, `PyStdlib`, fields of `Env`, the
  `http` oracle), exactly as the spec treats them (opaque collaborators).
- The dispatcher handlers are translated line by line from rpc.py; where a
  handler reads `params.get(...)` on a non-mapping value, Python raises
  AttributeError at the first such access, which the embedding reflects by
  casing on whether `params` is an object.
-/

namespace NapMsg

/-- Model of the values json.loads can produce (numbers restricted to
integers). -/
inductive JVal where
  | null
  | bool (b : Bool)
  | num (n : Int)
  | str (s : String)
  | arr (elems : List JVal)
  | obj (fields : List (String × JVal))

/-- Python truthiness of a `JVal` (the `if not x` tests in rpc.py). -/
def JVal.truthy : JVal → Bool
  | .null => false
  | .bool b => b
  | .num n => n != 0
  | .str s => s != ""
  | .arr xs => !xs.isEmpty
  | .obj fs => !fs.isEmpty

/-- Whether the value is Python `None` (`x is None`). -/
def JVal.isNull : JVal → Bool
  | .null => true
  | _ => false

/-- Whether the value is a JSON object (a Python dict). -/
def JVal.isObj : JVal → Bool
  | .obj _ => true
  | _ => false

/-- Lookup on a dict, as Python `d.get(k)`: the value of the first binding
of `k`, or `None` when `k` is absent. -/
def dictGet (fields : List (String × JVal)) (k : String) : JVal :=
  match fields.find? (fun p => p.1 == k) with
  | some p => p.2
  | none => .null

/-- Python `v == s` for a string literal `s`: true exactly when `v` is the
string `s` (comparison of a non-string with a string is `False`). -/
def isStrVal (v : JVal) (s : String) : Bool :=
  match v with
  | .str t => t == s
  | _ => false

/-- Python `a or b` on JSON values: `a` when truthy, otherwise `b`. -/
def orJ (a b : JVal) : JVal :=
  if a.truthy then a else b

/-- Name of the Python type of a value, as it appears in error messages. -/
def typeName : JVal → String
  | .null => "NoneType"
  | .bool _ => "bool"
  | .num _ => "int"
  | .str _ => "str"
  | .arr _ => "list"
  | .obj _ => "dict"

/-- Python exceptions relevant to the dispatcher and the ASR call; the
argument is what `str(exc)` yields. -/
inductive PyExc where
  | valueError (m : String)
  | runtimeError (m : String)
  | attributeError (m : String)
  | nameError (m : String)
  | typeError (m : String)

/-- Textual description of the exception, as Python `str(exc)`. -/
def PyExc.msg : PyExc → String
  | .valueError m => m
  | .runtimeError m => m
  | .attributeError m => m
  | .nameError m => m
  | .typeError m => m

/-- Message of the AttributeError raised by `v.get(...)` when `v` is not a
dict. -/
def noGetAttrMsg (v : JVal) : String :=
  "\x27" ++ typeName v ++ "\x27 object has no attribute \x27get\x27"

/-- Response lines the dispatcher writes back for requests (notifications
pushed by the background watch task are not produced by the request path
and are outside this type). `result` and `error` mirror
RpcServer._write_result and RpcServer._write_error. -/
inductive Out where
  | result (id : JVal) (value : JVal)
  | error (id : JVal) (code : Int) (message : String)

/-- RpcServer._write_result: suppressed entirely when the request id is
`None`. -/
def writeResult (reqId : JVal) (v : JVal) : List Out :=
  if reqId.isNull then [] else [.result reqId v]

/-- RpcServer._write_error: suppressed entirely when the request id is
`None`. -/
def writeError (reqId : JVal) (code : Int) (msg : String) : List Out :=
  if reqId.isNull then [] else [.error reqId code msg]

/-- Constructor arguments of NapcatRelayClient (an opaque external
collaborator): the url and timeout taken from the request parameters. -/
structure RelayClient where
  url : JVal
  timeout : JVal

/-- Filter parameters a subscription task is started with (the arguments
rpc.py passes to watch_forever, fixed at task start). -/
structure WatchParams where
  url : JVal
  fromGroup : JVal
  fromUser : JVal
  ignoreList : JVal
  asrOn : Bool

/-- Dispatcher state: `watchTask` is the single subscription handle
`self._watch_task` (task identity plus the parameters it was started
with); `running` is the set of background tasks that have been spawned and
not yet cancelled; `nextTask` is a fresh-identity counter. -/
structure ServerState where
  watchTask : Option (Nat × WatchParams)
  running : List Nat
  nextTask : Nat

/-- State of a dispatcher that has just started (RpcServer.__init__ sets
self._watch_task to None). -/
def initialState : ServerState := ⟨none, [], 0⟩

/-- RpcServer._stop_watch: when a task handle is held, clear the handle,
cancel the task and await it, swallowing the CancelledError.  After
`task.cancel()` plus `await task` the task is finished, which the model
reflects by removing its identity from `running`. -/
def stopWatch (st : ServerState) : ServerState :=
  match st.watchTask with
  | none => st
  | some t => { st with watchTask := none, running := st.running.filter (fun x => x != t.1) }

/-- Environment and external collaborators of the dispatcher: the three
environment variables it reads, DEFAULT_IGNORE_PREFIXES from the watch
module, builtins.str, and the three relay operations used by
RpcServer._handle_send (client.send_command on a forward Command,
send_group_message, send_private_message).  A relay operation either
returns a result value or raises, with the given message. -/
structure Env where
  getenvNapcatUrl : Option String
  getenvSecretId : Option String
  getenvSecretKey : Option String
  defaultIgnores : JVal
  strFn : JVal → String
  sendForwardCommand : RelayClient → String → JVal → Except PyExc JVal
  sendGroupMessage : RelayClient → JVal → JVal → Except PyExc JVal
  sendPrivateMessage : RelayClient → JVal → JVal → Except PyExc JVal

/-- Whitespace characters removed by Python str.strip. -/
def isSpaceChar (ch : Char) : Bool :=
  ch == ' ' || ch == '\t' || ch == '\n' || ch == '\r' || ch == '\x0b' || ch == '\x0c'

/-- Python str.strip with no argument: remove leading and trailing
whitespace. -/
def pyStrip (s : String) : String :=
  String.mk (((s.toList.dropWhile isSpaceChar).reverse.dropWhile isSpaceChar).reverse)

/-- Function _asr_enabled of rpc.py: both credential variables non-blank
after strip. -/
def rpcAsrEnabled (env : Env) : Bool :=
  (pyStrip (env.getenvSecretId.getD "") != "") && (pyStrip (env.getenvSecretKey.getD "") != "")

/-- Value of os.getenv NAPCAT_URL as seen by the `or` chain in
_handle_subscribe: `None` when unset, the string otherwise. -/
def subscribeEnvUrl (env : Env) : JVal :=
  match env.getenvNapcatUrl with
  | none => .null
  | some s => .str s

/-- Channel resolution of RpcServer._handle_send lines 124 and 130-134:
`params.get("channel") or params.get("type")`, then inference from
group_id / user_id when the result is falsy. -/
def resolveChannel (fields : List (String × JVal)) : JVal :=
  let c1 := orJ (dictGet fields "channel") (dictGet fields "type")
  if c1.truthy then c1
  else if (dictGet fields "group_id").truthy then .str "group"
  else if (dictGet fields "user_id").truthy then .str "private"
  else c1

/-- Forward-node list resolution of _handle_send line 138:
`params.get("messages") or params.get("nodes")`. -/
def forwardMessages (fields : List (String × JVal)) : JVal :=
  orJ (dictGet fields "messages") (dictGet fields "nodes")

/-- Body of the try-block of RpcServer._handle_send lines 136-155: the
result value of the chosen relay operation, or the exception it raises
(every exception raised inside the try-block, including by a relay
operation, is caught by the except clause of _handle_send). -/
def sendAttempt (env : Env) (fields : List (String × JVal)) : Except PyExc JVal :=
  let channel := resolveChannel fields
  let client : RelayClient := ⟨dictGet fields "napcat_url", dictGet fields "timeout"⟩
  if isStrVal channel "group_forward" then
    let messages := forwardMessages fields
    if messages.truthy then
      env.sendForwardCommand client (env.strFn (dictGet fields "group_id")) messages
    else
      .error (.valueError "messages is required for group_forward")
  else if isStrVal channel "group" then
    let message := dictGet fields "message"
    if message.truthy then
      env.sendGroupMessage client (dictGet fields "group_id") message
    else
      .error (.valueError "message is required for group send")
  else if isStrVal channel "private" then
    let message := dictGet fields "message"
    if message.truthy then
      env.sendPrivateMessage client (dictGet fields "user_id") message
    else
      .error (.valueError "message is required for private send")
  else
    .error (.valueError "Unsupported channel; use group, group_forward, or private")

/-- Message of the ValueError raised on each invalid-parameter path of the
try-block of _handle_send. -/
def sendFailMsg (fields : List (String × JVal)) : String :=
  let channel := resolveChannel fields
  if isStrVal channel "group_forward" then "messages is required for group_forward"
  else if isStrVal channel "group" then "message is required for group send"
  else if isStrVal channel "private" then "message is required for private send"
  else "Unsupported channel; use group, group_forward, or private"

/-- RpcServer._handle_send.  The handler never mutates the subscription
state; every exception inside its try-block becomes one `-32000` error
response; an AttributeError from `params.get` on a non-mapping `params`
(line 124, before the try-block) escapes to the dispatch boundary. -/
def handleSend (env : Env) (st : ServerState) (params reqId : JVal) :
    ServerState × List Out × Option PyExc :=
  match params with
  | .obj fields =>
    match sendAttempt env fields with
    | .error exc => (st, writeError reqId (-32000) exc.msg, none)
    | .ok result => (st, writeResult reqId result, none)
  | v => (st, [], some (.attributeError (noGetAttrMsg v)))

/-- RpcServer._handle_message_send: normalizes `{text, to|chatId|chat_id,
isGroup}` into the generic send shape and delegates to _handle_send, or
answers `-32602` when the resolved target is falsy or text is `None`. -/
def handleMessageSend (env : Env) (st : ServerState) (params reqId : JVal) :
    ServerState × List Out × Option PyExc :=
  match params with
  | .obj fields =>
    let text := dictGet fields "text"
    let target := orJ (dictGet fields "to") (orJ (dictGet fields "chatId") (dictGet fields "chat_id"))
    let isGroup := (dictGet fields "isGroup").truthy
    if !target.truthy || text.isNull then
      (st, writeError reqId (-32602) "to/chatId and text are required", none)
    else
      handleSend env st
        (.obj [("channel", .str (if isGroup then "group" else "private")),
               ("group_id", if isGroup then target else .null),
               ("user_id", if isGroup then .null else target),
               ("message", .arr [.obj [("type", .str "text"), ("data", .obj [("text", text)])]]),
               ("napcat_url", dictGet fields "napcat_url"),
               ("timeout", dictGet fields "timeout")])
        reqId
  | v => (st, [], some (.attributeError (noGetAttrMsg v)))

/-- RpcServer._handle_subscribe: first stop any running watch task (line
96), then resolve the gateway url from the parameter or the environment;
without a url answer `-32000`; otherwise start a fresh background task
with the filter parameters and answer `{status: "subscribed"}`.  An
AttributeError from `params.get` on a non-mapping `params` (line 97, after
the stop) escapes to the dispatch boundary. -/
def handleSubscribe (env : Env) (st : ServerState) (params reqId : JVal) :
    ServerState × List Out × Option PyExc :=
  let st1 := stopWatch st
  match params with
  | .obj fields =>
    let url := orJ (dictGet fields "napcat_url") (subscribeEnvUrl env)
    if url.truthy then
      let wp : WatchParams :=
        ⟨url, dictGet fields "from_group", dictGet fields "from_user",
         orJ (dictGet fields "ignore_prefixes") env.defaultIgnores, rpcAsrEnabled env⟩
      (⟨some (st1.nextTask, wp), st1.running ++ [st1.nextTask], st1.nextTask + 1⟩,
       writeResult reqId (.obj [("status", .str "subscribed")]), none)
    else
      (st1, writeError reqId (-32000) "NAPCAT_URL is required", none)
  | v => (st1, [], some (.attributeError (noGetAttrMsg v)))

/-- RpcServer._handle_unsubscribe: stop any running watch task and answer
`{status: "unsubscribed"}` unconditionally. -/
def handleUnsubscribe (st : ServerState) (reqId : JVal) :
    ServerState × List Out × Option PyExc :=
  (stopWatch st, writeResult reqId (.obj [("status", .str "unsubscribed")]), none)

/-- Capability descriptor returned by _handle_initialize. -/
def capabilitiesResult : JVal :=
  .obj [("capabilities", .obj [("streaming", .bool true), ("attachments", .bool true)])]

/-- RpcServer._handle_request: route by exact method string.  On a
non-mapping request, the very first `request.get("method")` raises
AttributeError, which escapes to the dispatch boundary in serve. -/
def handleRequest (env : Env) (st : ServerState) (request : JVal) :
    ServerState × List Out × Option PyExc :=
  match request with
  | .obj rfields =>
    let method := dictGet rfields "method"
    let reqId := dictGet rfields "id"
    let params := orJ (dictGet rfields "params") (.obj [])
    if isStrVal method "initialize" then
      (st, writeResult reqId capabilitiesResult, none)
    else if isStrVal method "watch.subscribe" then
      handleSubscribe env st params reqId
    else if isStrVal method "watch.unsubscribe" then
      handleUnsubscribe st reqId
    else if isStrVal method "message.send" then
      handleMessageSend env st params reqId
    else if isStrVal method "send" then
      handleSend env st params reqId
    else if isStrVal method "chats.list" then
      (st, writeResult reqId (.arr []), none)
    else
      (st, writeError reqId (-32601) "Method not found", none)
  | v => (st, [], some (.attributeError (noGetAttrMsg v)))

/-- Python `request.get("id")` at the dispatch boundary of serve: succeeds
on a dict, raises AttributeError otherwise. -/
def boundaryGetId : JVal → Except PyExc JVal
  | .obj fields => .ok (dictGet fields "id")
  | v => .error (.attributeError (noGetAttrMsg v))

/-- Body of the serve loop for one parsed line (rpc.py lines 37-41): run
_handle_request; on an exception, write a `-32000` error under
`request.get("id")` — the boundary recovery itself raises when the parsed
value is not a dict, and that second exception escapes the loop. -/
def processParsed (env : Env) (st : ServerState) (request : JVal) :
    ServerState × List Out × Option PyExc :=
  match handleRequest env st request with
  | (st1, outs, none) => (st1, outs, none)
  | (st1, outs, some exc) =>
    match boundaryGetId request with
    | .ok rid => (st1, outs ++ writeError rid (-32000) exc.msg, none)
    | .error exc2 => (st1, outs, some exc2)

/-- Outcome of reading and parsing one input line in serve: empty after
strip, not valid JSON (logged and skipped), or a parsed JSON value. -/
inductive LineContent where
  | blank
  | invalid
  | parsed (v : JVal)

/-- Prefixes the response lines of the current loop iteration onto the
output of the rest of the loop. -/
def consOuts (outs : List Out) (r : ServerState × List Out × Option PyExc) :
    ServerState × List Out × Option PyExc :=
  (r.1, outs ++ r.2.1, r.2.2)

/-- RpcServer.serve over the whole input: one line at a time until
end-of-input; blank and unparsable lines are skipped; a parsed line is
handled with the boundary recovery of `processParsed`; an exception that
escapes the boundary terminates the loop with the remaining lines
unprocessed.  Result: final state, all response lines written, and the
escaping exception if any (`none` means the loop ran to end-of-input). -/
def serveLoop (env : Env) (st : ServerState) :
    List LineContent → ServerState × List Out × Option PyExc
  | [] => (st, [], none)
  | .blank :: rest => serveLoop env st rest
  | .invalid :: rest => serveLoop env st rest
  | .parsed v :: rest =>
    match processParsed env st v with
    | (st1, outs, some exc) => (st1, outs, some exc)
    | (st1, outs, none) => consOuts outs (serveLoop env st1 rest)

/-- Invariant on the dispatcher state: the subscription handle and the set
of live background tasks agree — a held handle means exactly that one task
is live, an empty handle means none is. -/
def wellFormed (st : ServerState) : Prop :=
  match st.watchTask with
  | some t => st.running = [t.1] ∧ t.1 < st.nextTask
  | none => st.running = []

/-!
The TC3 signer of asr.py.  Bytes are lists of naturals.  The
cryptographic primitives and the calendar-date formatting come from the
Python standard library (hashlib, hmac, datetime), which is external to
the repository, so they enter as abstract functions collected in
`Crypto`; both the source-side and the spec-side construction are stated
over the same primitives.
-/

/-- UTF-8 bytes of a string (Python str.encode of the literals the signer
hashes). -/
def utf8 (s : String) : List Nat :=
  s.toUTF8.toList.map (fun b => b.toNat)

/-- Abstract standard-library primitives used by _build_tc3_headers:
SHA-256 over bytes, HMAC-SHA-256 of key and message bytes, hex rendering
of a digest, and the UTC calendar date of an epoch timestamp formatted
YYYY-MM-DD (datetime.utcfromtimestamp followed by strftime). -/
structure Crypto where
  sha256 : List Nat → List Nat
  hmacSha256 : List Nat → List Nat → List Nat
  hexDigest : List Nat → String
  utcDate : Int → String

/-- Python "\n".join over a list of lines. -/
def joinLines : List String → String
  | [] => ""
  | [s] => s
  | s :: rest => s ++ "\n" ++ joinLines rest

/-- Helper _hmac_sha256 of asr.py: HMAC-SHA256 of a byte key and the UTF-8
encoding of a string message. -/
def hmacSha256Str (c : Crypto) (key : List Nat) (msg : String) : List Nat :=
  c.hmacSha256 key (utf8 msg)

/-- Canonical request built at asr.py lines 22-33. -/
def tc3CanonicalRequest (c : Crypto) (body : List Nat) : String :=
  joinLines
    ["POST",
     "/",
     "",
     "content-type:application/json; charset=utf-8",
     "host:asr.tencentcloudapi.com",
     "",
     "content-type;host",
     c.hexDigest (c.sha256 body)]

/-- Credential scope built at asr.py line 35. -/
def tc3CredentialScope (c : Crypto) (timestamp : Int) : String :=
  c.utcDate timestamp ++ "/asr/tc3_request"

/-- String to sign built at asr.py lines 36-43. -/
def tc3StringToSign (c : Crypto) (body : List Nat) (timestamp : Int) : String :=
  joinLines
    ["TC3-HMAC-SHA256",
     toString timestamp,
     tc3CredentialScope c timestamp,
     c.hexDigest (c.sha256 (utf8 (tc3CanonicalRequest c body)))]

/-- Derived signing key, asr.py lines 45-47. -/
def tc3SigningKey (c : Crypto) (secretKey : String) (timestamp : Int) : List Nat :=
  let secretDate := hmacSha256Str c (utf8 ("TC3" ++ secretKey)) (c.utcDate timestamp)
  let secretService := hmacSha256Str c secretDate "asr"
  hmacSha256Str c secretService "tc3_request"

/-- Hex signature, asr.py line 48. -/
def tc3Signature (c : Crypto) (body : List Nat) (timestamp : Int) (secretKey : String) : String :=
  c.hexDigest (c.hmacSha256 (tc3SigningKey c secretKey timestamp) (utf8 (tc3StringToSign c body timestamp)))

/-- Authorization header value, asr.py lines 50-53. -/
def tc3Authorization (c : Crypto) (body : List Nat) (timestamp : Int)
    (secretId secretKey : String) : String :=
  "TC3-HMAC-SHA256 Credential=" ++ secretId ++ "/" ++ tc3CredentialScope c timestamp ++
    ", SignedHeaders=content-type;host, Signature=" ++ tc3Signature c body timestamp secretKey

/-- Function _build_tc3_headers of asr.py: the full header mapping, with
the region header appended only when a truthy region is supplied. -/
def buildTc3Headers (c : Crypto) (body : List Nat) (timestamp : Int)
    (secretId secretKey : String) (region : Option String) : List (String × String) :=
  let base :=
    [("Authorization", tc3Authorization c body timestamp secretId secretKey),
     ("Content-Type", "application/json; charset=utf-8"),
     ("Host", "asr.tencentcloudapi.com"),
     ("X-TC-Action", "SentenceRecognition"),
     ("X-TC-Version", "2019-06-14"),
     ("X-TC-Timestamp", toString timestamp),
     ("X-TC-RequestClient", "maid")]
  match region with
  | some r => if r == "" then base else base ++ [("X-TC-Region", r)]
  | none => base

/-- Lookup of a header value in the produced mapping. -/
def headerLookup (headers : List (String × String)) (k : String) : Option String :=
  (headers.find? (fun p => p.1 == k)).map (fun p => p.2)

/-!
Spec-side restatement of the TC3 scheme, written from the words of the
specification and of claim C1, to be compared with the source-side
construction above (refinement check).
-/

/-- Canonical request as the spec words it: the 8 lines POST, slash, the
empty query, the two lowercase header lines, the blank line after the
headers block, the signed-header list, and the hex body hash, joined by
newlines. -/
def specTc3CanonicalRequest (c : Crypto) (body : List Nat) : String :=
  joinLines
    ["POST", "/", "",
     "content-type:application/json; charset=utf-8",
     "host:asr.tencentcloudapi.com",
     "",
     "content-type;host",
     c.hexDigest (c.sha256 body)]

/-- String to sign as the spec words it: algorithm tag, decimal timestamp,
credential scope `date/asr/tc3_request`, and hex hash of the canonical
request — four lines joined by newlines. -/
def specTc3StringToSign (c : Crypto) (body : List Nat) (timestamp : Int) : String :=
  joinLines
    ["TC3-HMAC-SHA256",
     toString timestamp,
     c.utcDate timestamp ++ "/asr/tc3_request",
     c.hexDigest (c.sha256 (utf8 (specTc3CanonicalRequest c body)))]

/-- Key chain as the spec words it: kDate, kService, kSigning. -/
def specTc3KSigning (c : Crypto) (secretKey : String) (timestamp : Int) : List Nat :=
  let kDate := c.hmacSha256 (utf8 ("TC3" ++ secretKey)) (utf8 (c.utcDate timestamp))
  let kService := c.hmacSha256 kDate (utf8 "asr")
  c.hmacSha256 kService (utf8 "tc3_request")

/-- Authorization header value as the spec words it. -/
def specTc3Authorization (c : Crypto) (body : List Nat) (timestamp : Int)
    (secretId secretKey : String) : String :=
  "TC3-HMAC-SHA256 Credential=" ++ secretId ++ "/" ++ c.utcDate timestamp ++ "/asr/tc3_request" ++
    ", SignedHeaders=content-type;host, Signature=" ++
    c.hexDigest (c.hmacSha256 (specTc3KSigning c secretKey timestamp) (utf8 (specTc3StringToSign c body timestamp)))

/-!
The sentence_recognize coroutine of asr.py.
-/

/-- Environment variables the ASR call reads (`None` models an unset
variable). -/
structure AsrEnv where
  tencentSecretId : Option String
  tencentSecretKey : Option String
  tencentAsrRegion : Option String
  tencentAsrEngine : Option String

/-- Abstract Python standard-library functions used by sentence_recognize:
json.dumps, base64.b64encode (already decoded to str), and builtins.str as
used inside f-strings. -/
structure PyStdlib where
  dumps : JVal → String
  b64encode : List Nat → String
  strFn : JVal → String

/-- Result of a successful HTTP round trip: status code and the value
resp.json() yields. -/
structure HttpResp where
  statusCode : Nat
  jsonBody : JVal

/-- Names defined at module level in asr.py (its imports and its three
defs).  The module configures no logger and the name `logger` is not a
Python builtin, so a lookup of `logger` falls through to NameError. -/
def asrModuleGlobals : List String :=
  ["base64", "hashlib", "hmac", "json", "os", "time", "datetime", "Optional", "httpx",
   "_hmac_sha256", "_build_tc3_headers", "sentence_recognize"]

/-- Whether a module-level name resolves in asr.py. -/
def asrGlobalDefined (n : String) : Bool :=
  asrModuleGlobals.contains n

/-- Handling of the decoded response body, asr.py lines 109-123.  This
code is unreachable at run time (the `logger` lookup on line 102 raises
first); it is modelled here for completeness.  Message texts of the
TypeError/AttributeError paths on non-dict envelopes follow CPython. -/
def asrHandleBody (std : PyStdlib) (result : JVal) : Except PyExc JVal :=
  let response :=
    match result with
    | .obj fields => dictGet fields "Response"
    | _ => JVal.null
  if !response.truthy then
    .error (.runtimeError "Tencent Cloud returned invalid structure")
  else
    match response with
    | .obj rfs =>
      if (rfs.find? (fun p => p.1 == "Error")).isSome then
        match dictGet rfs "Error" with
        | .obj efs =>
          .error (.runtimeError
            ("Tencent Cloud ASR error: " ++ std.strFn (dictGet efs "Code") ++ " - " ++
             std.strFn (dictGet efs "Message")))
        | v => .error (.attributeError (noGetAttrMsg v))
      else
        let text := dictGet rfs "Result"
        if !text.truthy then
          .error (.runtimeError "Tencent Cloud did not return recognition result")
        else
          .ok text
    | .str s =>
      if (s.splitOn "Error").length > 1 then
        .error (.typeError "string indices must be integers")
      else
        .error (.attributeError (noGetAttrMsg (.str s)))
    | .arr xs =>
      if xs.any (fun x => isStrVal x "Error") then
        .error (.typeError "list indices must be integers or slices, not str")
      else
        .error (.attributeError (noGetAttrMsg (.arr xs)))
    | v => .error (.typeError ("argument of type \x27" ++ typeName v ++ "\x27 is not iterable"))

/-- Coroutine sentence_recognize of asr.py.  Arguments: environment,
abstract primitives, the HTTP oracle (transport failure or a response),
the current epoch second (int(time.time())), then the Python parameters.
The second component of the result is the list of HTTP requests actually
issued (body and headers of each POST). -/
def sentenceRecognize (env : AsrEnv) (c : Crypto) (std : PyStdlib)
    (http : List Nat → List (String × String) → Except String HttpResp)
    (now : Int) (data : List Nat) (voiceFormat : String)
    (engServiceType : Option String) (projectId : Option Int) :
    Except PyExc JVal × List (List Nat × List (String × String)) :=
  if data.isEmpty then
    (.error (.valueError "Audio data is empty"), [])
  else
    let secretId := pyStrip (env.tencentSecretId.getD "")
    let secretKey := pyStrip (env.tencentSecretKey.getD "")
    if secretId == "" || secretKey == "" then
      (.error (.runtimeError
        "Missing Tencent Cloud credentials: set TENCENT_SECRET_ID and TENCENT_SECRET_KEY"), [])
    else
      let regionStr := pyStrip (env.tencentAsrRegion.getD "")
      let region := if regionStr == "" then none else some regionStr
      let engine :=
        match engServiceType with
        | some s => if s == "" then pyStrip (env.tencentAsrEngine.getD "16k_zh") else s
        | none => pyStrip (env.tencentAsrEngine.getD "16k_zh")
      let payload0 : List (String × JVal) :=
        [("SubServiceType", .num 2),
         ("EngSerViceType", .str engine),
         ("SourceType", .num 1),
         ("VoiceFormat", .str voiceFormat),
         ("Data", .str (std.b64encode data))]
      let payload :=
        match projectId with
        | some pid => payload0 ++ [("ProjectId", .num pid)]
        | none => payload0
      let body := utf8 (std.dumps (.obj payload))
      let headers := buildTc3Headers c body now secretId secretKey region
      if asrGlobalDefined "logger" then
        match http body headers with
        | .error m => (.error (.runtimeError m), [(body, headers)])
        | .ok resp =>
          if 200 ≤ resp.statusCode ∧ resp.statusCode < 300 then
            (asrHandleBody std resp.jsonBody, [(body, headers)])
          else
            (.error (.runtimeError "HTTP status error"), [(body, headers)])
      else
        (.error (.nameError "name \x27logger\x27 is not defined"), [])

/-!
Concrete collaborator instances used by the witnesses and
counterexamples below.
-/

/-- Test dispatcher environment: no environment variables set, relay
operations that succeed with `null`. -/
def env0 : Env :=
  { getenvNapcatUrl := none
    getenvSecretId := none
    getenvSecretKey := none
    defaultIgnores := .arr [.str "/"]
    strFn := fun _ => ""
    sendForwardCommand := fun _ _ _ => .ok .null
    sendGroupMessage := fun _ _ _ => .ok .null
    sendPrivateMessage := fun _ _ _ => .ok .null }

/-- Test dispatcher environment with NAPCAT_URL set. -/
def envU : Env :=
  { env0 with getenvNapcatUrl := some "ws://gateway:3001" }

/-- Test dispatcher state holding one active subscription task. -/
def stA : ServerState :=
  ⟨some (0, ⟨.str "ws://gateway:3001", .null, .null, .arr [.str "/"], false⟩), [0], 1⟩

/-- Test crypto primitives (their concrete behaviour is irrelevant to the
theorems, which hold for every `Crypto`). -/
def crypto0 : Crypto :=
  ⟨fun _ => [], fun _ _ => [], fun _ => "", fun _ => ""⟩

/-- Test standard-library functions. -/
def std0 : PyStdlib :=
  ⟨fun _ => "", fun _ => "", fun _ => ""⟩

/-- Test HTTP oracle. -/
def http0 : List Nat → List (String × String) → Except String HttpResp :=
  fun _ _ => .ok ⟨200, .null⟩

/-- Test ASR environment with no credential variables set. -/
def asrEnv0 : AsrEnv := ⟨none, none, none, none⟩

/-- Test ASR environment with both credential variables set and
non-blank. -/
def asrEnv1 : AsrEnv := ⟨some "AKIDtest", some "keytest", none, none⟩

/-!
Helper lemmas shared by the claim theorems.
-/

theorem writeResult_null (v : JVal) : writeResult .null v = [] := rfl

theorem writeError_null (c : Int) (m : String) : writeError .null c m = [] := rfl

theorem writeResult_notNull {i : JVal} (h : i.isNull = false) (v : JVal) :
    writeResult i v = [.result i v] := by
  simp [writeResult, h]

theorem writeError_notNull {i : JVal} (h : i.isNull = false) (c : Int) (m : String) :
    writeError i c m = [.error i c m] := by
  simp [writeError, h]

theorem stopWatch_watchTask (st : ServerState) : (stopWatch st).watchTask = none := by
  cases h : st.watchTask <;> simp [stopWatch, h]

theorem stopWatch_of_wf {st : ServerState} (h : wellFormed st) :
    stopWatch st = { watchTask := none, running := [], nextTask := st.nextTask } := by
  obtain ⟨wt, run, nxt⟩ := st
  cases wt with
  | none =>
    simp only [wellFormed] at h
    simp [stopWatch, h]
  | some t =>
    simp only [wellFormed] at h
    simp [stopWatch, h.1, List.filter]

theorem wf_stopWatch {st : ServerState} (h : wellFormed st) : wellFormed (stopWatch st) := by
  rw [stopWatch_of_wf h]
  simp [wellFormed]

theorem wf_task_lt {st : ServerState} {t : Nat} {wp : WatchParams} (h : wellFormed st)
    (hw : st.watchTask = some (t, wp)) : st.running = [t] ∧ t < st.nextTask := by
  obtain ⟨wt, run, nxt⟩ := st
  simp only at hw
  subst hw
  simpa [wellFormed] using h

theorem wf_running_le_one {st : ServerState} (h : wellFormed st) : st.running.length ≤ 1 := by
  obtain ⟨wt, run, nxt⟩ := st
  cases wt with
  | none => simp only [wellFormed] at h; simp [h]
  | some t => simp only [wellFormed] at h; simp [h.1]

theorem isStrVal_ne {v : JVal} {a b : String} (h : isStrVal v a = true) (hne : a ≠ b) :
    isStrVal v b = false := by
  cases v with
  | str t =>
    simp only [isStrVal, beq_iff_eq] at h
    subst h
    simpa [isStrVal] using hne
  | null => rfl
  | bool x => rfl
  | num n => rfl
  | arr xs => rfl
  | obj fs => rfl

theorem handleSend_obj (env : Env) (st : ServerState) (fields : List (String × JVal)) (i : JVal) :
    handleSend env st (.obj fields) i =
      match sendAttempt env fields with
      | .error exc => (st, writeError i (-32000) exc.msg, none)
      | .ok result => (st, writeResult i result, none) := rfl

theorem handleMessageSend_obj (env : Env) (st : ServerState) (fields : List (String × JVal))
    (i : JVal) :
    handleMessageSend env st (.obj fields) i =
      if !(orJ (dictGet fields "to") (orJ (dictGet fields "chatId") (dictGet fields "chat_id"))).truthy
          || (dictGet fields "text").isNull then
        (st, writeError i (-32602) "to/chatId and text are required", none)
      else
        handleSend env st
          (.obj [("channel", .str (if (dictGet fields "isGroup").truthy then "group" else "private")),
                 ("group_id", if (dictGet fields "isGroup").truthy then
                     orJ (dictGet fields "to") (orJ (dictGet fields "chatId") (dictGet fields "chat_id"))
                   else .null),
                 ("user_id", if (dictGet fields "isGroup").truthy then .null else
                     orJ (dictGet fields "to") (orJ (dictGet fields "chatId") (dictGet fields "chat_id"))),
                 ("message", .arr [.obj [("type", .str "text"),
                     ("data", .obj [("text", dictGet fields "text")])]]),
                 ("napcat_url", dictGet fields "napcat_url"),
                 ("timeout", dictGet fields "timeout")])
          i := rfl

theorem handleSubscribe_obj (env : Env) (st : ServerState) (fields : List (String × JVal))
    (i : JVal) :
    handleSubscribe env st (.obj fields) i =
      if (orJ (dictGet fields "napcat_url") (subscribeEnvUrl env)).truthy then
        (⟨some ((stopWatch st).nextTask,
            ⟨orJ (dictGet fields "napcat_url") (subscribeEnvUrl env),
             dictGet fields "from_group", dictGet fields "from_user",
             orJ (dictGet fields "ignore_prefixes") env.defaultIgnores, rpcAsrEnabled env⟩),
          (stopWatch st).running ++ [(stopWatch st).nextTask], (stopWatch st).nextTask + 1⟩,
         writeResult i (.obj [("status", .str "subscribed")]), none)
      else
        (stopWatch st, writeError i (-32000) "NAPCAT_URL is required", none) := rfl

theorem handleRequest_obj (env : Env) (st : ServerState) (rfields : List (String × JVal)) :
    handleRequest env st (.obj rfields) =
      if isStrVal (dictGet rfields "method") "initialize" then
        (st, writeResult (dictGet rfields "id") capabilitiesResult, none)
      else if isStrVal (dictGet rfields "method") "watch.subscribe" then
        handleSubscribe env st (orJ (dictGet rfields "params") (.obj [])) (dictGet rfields "id")
      else if isStrVal (dictGet rfields "method") "watch.unsubscribe" then
        handleUnsubscribe st (dictGet rfields "id")
      else if isStrVal (dictGet rfields "method") "message.send" then
        handleMessageSend env st (orJ (dictGet rfields "params") (.obj [])) (dictGet rfields "id")
      else if isStrVal (dictGet rfields "method") "send" then
        handleSend env st (orJ (dictGet rfields "params") (.obj [])) (dictGet rfields "id")
      else if isStrVal (dictGet rfields "method") "chats.list" then
        (st, writeResult (dictGet rfields "id") (.arr []), none)
      else
        (st, writeError (dictGet rfields "id") (-32601) "Method not found", none) := rfl

theorem handleSend_state (env : Env) (st : ServerState) (p i : JVal) :
    (handleSend env st p i).1 = st := by
  cases p with
  | obj fields =>
    rw [handleSend_obj]
    cases sendAttempt env fields <;> rfl
  | null => rfl
  | bool b => rfl
  | num n => rfl
  | str s => rfl
  | arr xs => rfl

theorem handleMessageSend_state (env : Env) (st : ServerState) (p i : JVal) :
    (handleMessageSend env st p i).1 = st := by
  cases p with
  | obj fields =>
    rw [handleMessageSend_obj]
    split
    · rfl
    · exact handleSend_state env st _ i
  | null => rfl
  | bool b => rfl
  | num n => rfl
  | str s => rfl
  | arr xs => rfl

theorem handleSubscribe_success_running (env : Env) {st : ServerState}
    (fields : List (String × JVal)) (i : JVal) (h : wellFormed st)
    (hu : (orJ (dictGet fields "napcat_url") (subscribeEnvUrl env)).truthy = true) :
    (handleSubscribe env st (.obj fields) i).1.running = [st.nextTask] := by
  rw [handleSubscribe_obj, stopWatch_of_wf h, hu]
  simp

theorem wf_handleSubscribe (env : Env) {st : ServerState} (p i : JVal) (h : wellFormed st) :
    wellFormed (handleSubscribe env st p i).1 := by
  cases p with
  | obj fields =>
    rw [handleSubscribe_obj, stopWatch_of_wf h]
    split
    · exact ⟨by simp, Nat.lt_succ_self _⟩
    · rfl
  | null => exact wf_stopWatch h
  | bool b => exact wf_stopWatch h
  | num n => exact wf_stopWatch h
  | str s => exact wf_stopWatch h
  | arr xs => exact wf_stopWatch h

theorem wf_handleRequest (env : Env) {st : ServerState} (req : JVal) (h : wellFormed st) :
    wellFormed (handleRequest env st req).1 := by
  cases req with
  | obj rfields =>
    rw [handleRequest_obj]
    split
    · exact h
    split
    · exact wf_handleSubscribe env _ _ h
    split
    · exact wf_stopWatch h
    split
    · rw [handleMessageSend_state]; exact h
    split
    · rw [handleSend_state]; exact h
    split
    · exact h
    · exact h
  | null => exact h
  | bool b => exact h
  | num n => exact h
  | str s => exact h
  | arr xs => exact h

theorem processParsed_state (env : Env) (st : ServerState) (req : JVal) :
    (processParsed env st req).1 = (handleRequest env st req).1 := by
  unfold processParsed
  rcases handleRequest env st req with ⟨st1, outs, _ | exc⟩
  · rfl
  · cases boundaryGetId req <;> rfl

theorem processParsed_obj_no_fault (env : Env) (st : ServerState)
    (rfields : List (String × JVal)) :
    (processParsed env st (.obj rfields)).2.2 = none := by
  unfold processParsed
  rcases handleRequest env st (.obj rfields) with ⟨st1, outs, _ | exc⟩
  · rfl
  · rfl

theorem wf_serveLoop (env : Env) (lines : List LineContent) :
    ∀ st : ServerState, wellFormed st → wellFormed (serveLoop env st lines).1 := by
  induction lines with
  | nil => intro st h; exact h
  | cons l rest ih =>
    intro st h
    cases l with
    | blank => exact ih st h
    | invalid => exact ih st h
    | parsed v =>
      have hwf0 : wellFormed (processParsed env st v).1 := by
        rw [processParsed_state]
        exact wf_handleRequest env v h
      simp only [serveLoop]
      rcases hp : processParsed env st v with ⟨st1, outs, exc⟩
      rw [hp] at hwf0
      cases exc with
      | some e => exact hwf0
      | none => exact ih st1 hwf0

theorem handleSend_outs_null (env : Env) (st : ServerState) (p : JVal) :
    (handleSend env st p .null).2.1 = [] := by
  cases p with
  | obj fields =>
    rw [handleSend_obj]
    cases sendAttempt env fields <;> rfl
  | null => rfl
  | bool b => rfl
  | num n => rfl
  | str s => rfl
  | arr xs => rfl

theorem handleMessageSend_outs_null (env : Env) (st : ServerState) (p : JVal) :
    (handleMessageSend env st p .null).2.1 = [] := by
  cases p with
  | obj fields =>
    rw [handleMessageSend_obj]
    split
    · rfl
    · exact handleSend_outs_null env st _
  | null => rfl
  | bool b => rfl
  | num n => rfl
  | str s => rfl
  | arr xs => rfl

theorem handleSubscribe_outs_null (env : Env) (st : ServerState) (p : JVal) :
    (handleSubscribe env st p .null).2.1 = [] := by
  cases p with
  | obj fields =>
    rw [handleSubscribe_obj]
    split
    · rfl
    · rfl
  | null => rfl
  | bool b => rfl
  | num n => rfl
  | str s => rfl
  | arr xs => rfl

theorem handleRequest_outs_null (env : Env) (st : ServerState)
    (rfields : List (String × JVal)) (hid : dictGet rfields "id" = JVal.null) :
    (handleRequest env st (.obj rfields)).2.1 = [] := by
  rw [handleRequest_obj, hid]
  split
  · rfl
  split
  · exact handleSubscribe_outs_null env st _
  split
  · rfl
  split
  · exact handleMessageSend_outs_null env st _
  split
  · exact handleSend_outs_null env st _
  split
  · rfl
  · rfl

/-!
Claim theorems.
-/

/-- C1: the header construction of _build_tc3_headers follows the TC3
scheme exactly, for every body, timestamp, credential pair and optional
region — the canonical request is the 8-line string of the claim, the
string to sign is its 4 lines, the signing key is the kDate/kService/
kSigning chain, and the Authorization header is the prescribed
Credential/SignedHeaders/Signature string (all stated over the same
abstract SHA-256 / HMAC-SHA-256 / hex / UTC-date primitives that both the
code and the spec invoke). -/
theorem C1_tc3_signing_scheme :
    ∀ (c : Crypto) (body : List Nat) (timestamp : Int) (secretId secretKey : String)
      (region : Option String),
      tc3CanonicalRequest c body = specTc3CanonicalRequest c body ∧
      tc3StringToSign c body timestamp = specTc3StringToSign c body timestamp ∧
      tc3SigningKey c secretKey timestamp = specTc3KSigning c secretKey timestamp ∧
      tc3Authorization c body timestamp secretId secretKey =
        specTc3Authorization c body timestamp secretId secretKey ∧
      headerLookup (buildTc3Headers c body timestamp secretId secretKey region) "Authorization" =
        some (specTc3Authorization c body timestamp secretId secretKey) := by
  intro c body ts sid skey region
  have h4 : tc3Authorization c body ts sid skey = specTc3Authorization c body ts sid skey := by
    simp only [tc3Authorization, specTc3Authorization, tc3CredentialScope, tc3Signature,
      tc3SigningKey, specTc3KSigning, hmacSha256Str, tc3StringToSign, specTc3StringToSign,
      tc3CanonicalRequest, specTc3CanonicalRequest, String.append_assoc]
  refine ⟨rfl, rfl, rfl, h4, ?_⟩
  have hfind : ∀ rest : List (String × String),
      headerLookup (("Authorization", tc3Authorization c body ts sid skey) :: rest)
        "Authorization" = some (tc3Authorization c body ts sid skey) := fun _ => rfl
  cases region with
  | none => exact (hfind _).trans (congrArg some h4)
  | some r =>
    show headerLookup (if r == "" then _ else _) "Authorization" = _
    split
    · exact (hfind _).trans (congrArg some h4)
    · exact (hfind _).trans (congrArg some h4)

/-- C2, counterexample to the claim as stated: a send request with id 1
and channel group but no message list is answered with exactly one error
response, but its code is -32000, not -32602 (the ValueError raised inside
the try-block of _handle_send is mapped by its own except clause to
-32000). -/
theorem C2_counterexample :
    handleSend env0 initialState (.obj [("channel", .str "group")]) (.num 1) =
      (initialState, [.error (.num 1) (-32000) "message is required for group send"], none) ∧
    ((-32000 : Int) ≠ -32602) :=
  ⟨rfl, by decide⟩

/-- C2 as amended: for every send request carrying an id, a missing or
empty required parameter (messages/nodes for group_forward, message for
group or private) or a resolved channel other than the three supported
ones yields exactly one error response, whose code is -32000 and whose
message is the corresponding ValueError text. -/
theorem C2_send_invalid_params :
    ∀ (env : Env) (st : ServerState) (fields : List (String × JVal)) (reqId : JVal),
      reqId.isNull = false →
      ((isStrVal (resolveChannel fields) "group_forward" = true ∧
          (forwardMessages fields).truthy = false) ∨
       ((isStrVal (resolveChannel fields) "group" = true ∨
           isStrVal (resolveChannel fields) "private" = true) ∧
          (dictGet fields "message").truthy = false) ∨
       (isStrVal (resolveChannel fields) "group_forward" = false ∧
          isStrVal (resolveChannel fields) "group" = false ∧
          isStrVal (resolveChannel fields) "private" = false)) →
      handleSend env st (.obj fields) reqId =
        (st, [.error reqId (-32000) (sendFailMsg fields)], none) := by
  intro env st fields reqId hid hcase
  rw [handleSend_obj]
  rcases hcase with ⟨hc, hm⟩ | ⟨hc | hc, hm⟩ | ⟨h1, h2, h3⟩
  · simp [sendAttempt, sendFailMsg, PyExc.msg, hc, hm, writeError_notNull hid]
  · have hf := isStrVal_ne hc (show "group" ≠ "group_forward" by decide)
    simp [sendAttempt, sendFailMsg, PyExc.msg, hc, hf, hm, writeError_notNull hid]
  · have hf := isStrVal_ne hc (show "private" ≠ "group_forward" by decide)
    have hg := isStrVal_ne hc (show "private" ≠ "group" by decide)
    simp [sendAttempt, sendFailMsg, PyExc.msg, hc, hf, hg, hm, writeError_notNull hid]
  · simp [sendAttempt, sendFailMsg, PyExc.msg, h1, h2, h3, writeError_notNull hid]

/-- Witness for C2: concrete instance of the amended theorem. -/
theorem C2_send_invalid_params_witness :
    handleSend env0 initialState (.obj [("channel", .str "group")]) (.num 5) =
      (initialState, [.error (.num 5) (-32000) (sendFailMsg [("channel", .str "group")])], none) :=
  C2_send_invalid_params env0 initialState [("channel", .str "group")] (.num 5) rfl
    (Or.inr (Or.inl ⟨Or.inl rfl, rfl⟩))

/-- C6: a parsed request object whose id field is absent or null produces
no response line at all — on the success path and on every error path,
including a handler fault recovered at the dispatch boundary. -/
theorem C6_no_id_no_output :
    ∀ (env : Env) (st : ServerState) (rfields : List (String × JVal)),
      dictGet rfields "id" = JVal.null →
      (processParsed env st (.obj rfields)).2.1 = [] := by
  intro env st rfields hid
  have houts := handleRequest_outs_null env st rfields hid
  unfold processParsed
  rcases hr : handleRequest env st (.obj rfields) with ⟨st1, outs, exc⟩
  rw [hr] at houts
  simp only at houts
  cases exc with
  | none => exact houts
  | some e =>
    show (st1, outs ++ writeError (dictGet rfields "id") (-32000) e.msg, none).2.1 = []
    rw [hid, writeError_null]
    simpa using houts

/-- Witness for C6: a send request without an id writes nothing. -/
theorem C6_no_id_no_output_witness :
    (processParsed env0 initialState (.obj [("method", .str "send")])).2.1 = [] :=
  C6_no_id_no_output env0 initialState [("method", .str "send")] rfl

/-- C7: watch.unsubscribe is idempotent — from every dispatcher state,
with an id present, it answers exactly one result line with status
unsubscribed and never an error, and afterwards the subscription handle is
empty and no background task is live. -/
theorem C7_unsubscribe_idempotent :
    ∀ (st : ServerState) (reqId : JVal), reqId.isNull = false → wellFormed st →
      handleUnsubscribe st reqId =
        (stopWatch st, [.result reqId (.obj [("status", .str "unsubscribed")])], none) ∧
      (stopWatch st).watchTask = none ∧ (stopWatch st).running = [] := by
  intro st reqId hid h
  refine ⟨?_, stopWatch_watchTask st, ?_⟩
  · unfold handleUnsubscribe
    rw [writeResult_notNull hid]
  · rw [stopWatch_of_wf h]

/-- Witness for C7: unsubscribe from a state with one live subscription. -/
theorem C7_unsubscribe_idempotent_witness :
    handleUnsubscribe stA (.num 7) =
      (stopWatch stA, [.result (.num 7) (.obj [("status", .str "unsubscribed")])], none) ∧
    (stopWatch stA).watchTask = none ∧ (stopWatch stA).running = [] :=
  C7_unsubscribe_idempotent stA (.num 7) rfl ⟨rfl, Nat.lt_succ_self 0⟩

/-- C9: message.send with a truthy resolved target (to, else chatId, else
chat_id) and a non-null text delegates to the generic send handler with
channel group exactly when isGroup is truthy (otherwise private), the
target placed in group_id when isGroup is truthy and in user_id otherwise,
and the message normalized to a single text segment; with a falsy target
or a null text it instead answers error -32602. -/
theorem C9_message_send_normalization :
    ∀ (env : Env) (st : ServerState) (fields : List (String × JVal)) (reqId : JVal),
      ((orJ (dictGet fields "to") (orJ (dictGet fields "chatId") (dictGet fields "chat_id"))).truthy = false ∨
         (dictGet fields "text").isNull = true →
       handleMessageSend env st (.obj fields) reqId =
         (st, writeError reqId (-32602) "to/chatId and text are required", none)) ∧
      ((orJ (dictGet fields "to") (orJ (dictGet fields "chatId") (dictGet fields "chat_id"))).truthy = true →
       (dictGet fields "text").isNull = false →
       handleMessageSend env st (.obj fields) reqId =
         handleSend env st
           (.obj [("channel", .str (if (dictGet fields "isGroup").truthy then "group" else "private")),
                  ("group_id", if (dictGet fields "isGroup").truthy then
                      orJ (dictGet fields "to") (orJ (dictGet fields "chatId") (dictGet fields "chat_id"))
                    else .null),
                  ("user_id", if (dictGet fields "isGroup").truthy then .null else
                      orJ (dictGet fields "to") (orJ (dictGet fields "chatId") (dictGet fields "chat_id"))),
                  ("message", .arr [.obj [("type", .str "text"),
                      ("data", .obj [("text", dictGet fields "text")])]]),
                  ("napcat_url", dictGet fields "napcat_url"),
                  ("timeout", dictGet fields "timeout")])
           reqId) := by
  intro env st fields reqId
  constructor
  · intro h
    rw [handleMessageSend_obj]
    rcases h with h | h <;> simp [h]
  · intro h1 h2
    rw [handleMessageSend_obj]
    simp [h1, h2]

/-- Witness for C9: a private message.send with target and text delegates
to send. -/
theorem C9_message_send_normalization_witness :
    handleMessageSend env0 initialState (.obj [("to", .str "42"), ("text", .str "hi")]) (.num 3) =
      handleSend env0 initialState
        (.obj [("channel", .str "private"), ("group_id", .null), ("user_id", .str "42"),
               ("message", .arr [.obj [("type", .str "text"), ("data", .obj [("text", .str "hi")])]]),
               ("napcat_url", .null), ("timeout", .null)]) (.num 3) :=
  (C9_message_send_normalization env0 initialState
      [("to", .str "42"), ("text", .str "hi")] (.num 3)).2 rfl rfl

/-- C10: a watch.subscribe that fails for lack of a resolvable gateway url
(no napcat_url parameter and no NAPCAT_URL in the environment) is not
atomic with respect to subscription state — the previously active
subscription has already been cancelled and awaited before the url check,
so after the single -32000 error response the handle is empty and no
background task is live. -/
theorem C10_subscribe_failure_clears_state :
    ∀ (env : Env) (st : ServerState) (fields : List (String × JVal)) (reqId : JVal),
      env.getenvNapcatUrl = none →
      dictGet fields "napcat_url" = JVal.null →
      reqId.isNull = false →
      handleSubscribe env st (.obj fields) reqId =
        (stopWatch st, [.error reqId (-32000) "NAPCAT_URL is required"], none) ∧
      (stopWatch st).watchTask = none ∧
      (wellFormed st → (stopWatch st).running = []) := by
  intro env st fields reqId henv hparam hid
  refine ⟨?_, stopWatch_watchTask st, fun h => by rw [stopWatch_of_wf h]⟩
  rw [handleSubscribe_obj, hparam]
  simp [subscribeEnvUrl, henv, orJ, JVal.truthy, writeError_notNull hid]

/-- Witness for C10: subscribing with no url from a state with one live
subscription answers the -32000 error and leaves no subscription. -/
theorem C10_subscribe_failure_clears_state_witness :
    handleSubscribe env0 stA (.obj []) (.num 4) =
      (stopWatch stA, [.error (.num 4) (-32000) "NAPCAT_URL is required"], none) ∧
    (stopWatch stA).watchTask = none ∧
    (wellFormed stA → (stopWatch stA).running = []) :=
  C10_subscribe_failure_clears_state env0 stA [] (.num 4) rfl rfl rfl

/-- C3, counterexample to the claim as stated: the input line `5` parses
as JSON, its handling faults (an int has no .get attribute), and the
boundary recovery `request.get("id")` raises the same fault again, so the
serve loop terminates with an escaping exception — end-of-input was not
reached, and the following well-formed request line is never processed (no
response to it is written). -/
theorem C3_counterexample :
    (serveLoop env0 initialState
        [.parsed (.num 5),
         .parsed (.obj [("method", .str "chats.list"), ("id", .num 1)])]).2.2 =
      some (.attributeError "\x27int\x27 object has no attribute \x27get\x27") ∧
    (serveLoop env0 initialState
        [.parsed (.num 5),
         .parsed (.obj [("method", .str "chats.list"), ("id", .num 1)])]).2.1 = [] :=
  ⟨rfl, rfl⟩

/-- C3 as amended: for every input line that parses as a JSON object, any
fault raised while handling the request is caught at the dispatch boundary
and converted into a -32000 error response carrying the fault text
(suppressed when no id is present), and the serve loop runs every line to
end-of-input — no fault on object lines terminates it. -/
theorem C3_faults_confined :
    (∀ (env : Env) (st : ServerState) (lines : List LineContent),
       (∀ v, LineContent.parsed v ∈ lines → v.isObj = true) →
       (serveLoop env st lines).2.2 = none) ∧
    (∀ (env : Env) (st : ServerState) (rfields : List (String × JVal)) (st1 : ServerState)
       (outs : List Out) (exc : PyExc),
       handleRequest env st (.obj rfields) = (st1, outs, some exc) →
       processParsed env st (.obj rfields) =
         (st1, outs ++ writeError (dictGet rfields "id") (-32000) exc.msg, none)) := by
  constructor
  · intro env st lines
    induction lines generalizing st with
    | nil => intro _; rfl
    | cons l rest ih =>
      intro hall
      cases l with
      | blank => exact ih st (fun v hv => hall v (List.mem_cons_of_mem _ hv))
      | invalid => exact ih st (fun v hv => hall v (List.mem_cons_of_mem _ hv))
      | parsed v =>
        have hobj : v.isObj = true := hall v (List.mem_cons_self _ _)
        rcases v with _ | b | n | s | xs | fs <;> simp [JVal.isObj] at hobj
        have hnone := processParsed_obj_no_fault env st fs
        simp only [serveLoop]
        rcases hp : processParsed env st (.obj fs) with ⟨st1, outs, exc⟩
        rw [hp] at hnone
        simp only at hnone
        subst hnone
        exact ih st1 (fun v hv => hall v (List.mem_cons_of_mem _ hv))
  · intro env st rfields st1 outs exc h
    unfold processParsed
    rw [h]
    rfl

/-- Witness for C3: a serve run over one object line (an unknown method,
so an error response is produced) reaches end-of-input. -/
theorem C3_faults_confined_witness :
    (serveLoop env0 initialState
        [.parsed (.obj [("method", .str "nope"), ("id", .num 1)])]).2.2 = none :=
  C3_faults_confined.1 env0 initialState _ (by
    intro v hv
    simp only [List.mem_singleton] at hv
    cases hv
    rfl)

/-- C4: at every point of the execution of the dispatcher there is at most one
active subscription task — the state invariant is preserved along every
serve run, so the live-task count never exceeds one; a watch.subscribe
that finds a task running removes it before the new task starts (the old
identity is never among the live tasks afterwards, on success and failure
paths alike); and two consecutive subscribes with a resolvable url leave
exactly one live task. -/
theorem C4_single_active_subscription :
    (∀ (env : Env) (st : ServerState) (lines : List LineContent), wellFormed st →
       wellFormed (serveLoop env st lines).1 ∧
       (serveLoop env st lines).1.running.length ≤ 1) ∧
    (∀ (env : Env) (st : ServerState) (params reqId : JVal) (t : Nat) (wp : WatchParams),
       wellFormed st → st.watchTask = some (t, wp) →
       t ∉ (handleSubscribe env st params reqId).1.running) ∧
    (∀ (env : Env) (st : ServerState) (f1 f2 : List (String × JVal)) (i1 i2 : JVal),
       wellFormed st →
       (orJ (dictGet f2 "napcat_url") (subscribeEnvUrl env)).truthy = true →
       ((handleSubscribe env (handleSubscribe env st (.obj f1) i1).1 (.obj f2) i2).1).running.length = 1) := by
  refine ⟨?_, ?_, ?_⟩
  · intro env st lines h
    have hwf := wf_serveLoop env lines st h
    exact ⟨hwf, wf_running_le_one hwf⟩
  · intro env st params reqId t wp h hw
    obtain ⟨hrun, hlt⟩ := wf_task_lt h hw
    cases params with
    | obj fields =>
      rw [handleSubscribe_obj, stopWatch_of_wf h]
      split
      · intro hmem
        simp at hmem
        omega
      · simp
    | null =>
      show t ∉ (stopWatch st).running
      rw [stopWatch_of_wf h]
      simp
    | bool b =>
      show t ∉ (stopWatch st).running
      rw [stopWatch_of_wf h]
      simp
    | num n =>
      show t ∉ (stopWatch st).running
      rw [stopWatch_of_wf h]
      simp
    | str s =>
      show t ∉ (stopWatch st).running
      rw [stopWatch_of_wf h]
      simp
    | arr xs =>
      show t ∉ (stopWatch st).running
      rw [stopWatch_of_wf h]
      simp
  · intro env st f1 f2 i1 i2 h hu
    have h1 : wellFormed (handleSubscribe env st (.obj f1) i1).1 :=
      wf_handleSubscribe env _ i1 h
    rw [handleSubscribe_success_running env f2 i2 h1 hu]
    rfl

/-- Witness for C4: from a state with one live subscription, two
consecutive subscribes against an environment with NAPCAT_URL set leave
exactly one live task. -/
theorem C4_single_active_subscription_witness :
    ((handleSubscribe envU (handleSubscribe envU stA (.obj []) (.num 1)).1 (.obj []) (.num 2)).1).running.length = 1 :=
  C4_single_active_subscription.2.2 envU stA [] [] (.num 1) (.num 2)
    ⟨rfl, Nat.lt_succ_self 0⟩ rfl

/-- C5: with non-empty audio data and both credential variables resolving
to non-blank values, sentence_recognize raises NameError before issuing
any HTTP request — the module-level name logger referenced after header
construction is not defined in asr.py — so the success and remote-error
paths are unreachable. -/
theorem C5_logger_undefined :
    ∀ (env : AsrEnv) (c : Crypto) (std : PyStdlib)
      (http : List Nat → List (String × String) → Except String HttpResp)
      (now : Int) (data : List Nat) (voiceFormat : String)
      (engServiceType : Option String) (projectId : Option Int),
      data ≠ [] →
      pyStrip (env.tencentSecretId.getD "") ≠ "" →
      pyStrip (env.tencentSecretKey.getD "") ≠ "" →
      sentenceRecognize env c std http now data voiceFormat engServiceType projectId =
        (.error (.nameError "name \x27logger\x27 is not defined"), []) ∧
      asrGlobalDefined "logger" = false := by
  intro env c std http now data vf eng pid hdata hid hkey
  have hlog : asrGlobalDefined "logger" = false := by decide
  refine ⟨?_, hlog⟩
  unfold sentenceRecognize
  have h1 : data.isEmpty = false := by
    cases data
    · exact absurd rfl hdata
    · rfl
  have h2 : (pyStrip (env.tencentSecretId.getD "") == "") = false :=
    beq_eq_false_iff_ne.mpr hid
  have h3 : (pyStrip (env.tencentSecretKey.getD "") == "") = false :=
    beq_eq_false_iff_ne.mpr hkey
  simp [h1, h2, h3, hlog]

/-- Witness for C5: concrete call with audio bytes and credentials. -/
theorem C5_logger_undefined_witness :
    sentenceRecognize asrEnv1 crypto0 std0 http0 1700000000 [0, 1] "mp3" none none =
      (.error (.nameError "name \x27logger\x27 is not defined"), []) :=
  (C5_logger_undefined asrEnv1 crypto0 std0 http0 1700000000 [0, 1] "mp3" none none
    (by decide) (by decide) (by decide)).1

/-- C8: sentence_recognize fails before any network request when the
audio is empty (ValueError, checked first, whatever the credentials) or
when either credential variable is absent or blank (RuntimeError, checked
second); in both cases the list of issued HTTP requests is empty. -/
theorem C8_config_errors_before_network :
    (∀ (env : AsrEnv) (c : Crypto) (std : PyStdlib)
       (http : List Nat → List (String × String) → Except String HttpResp)
       (now : Int) (voiceFormat : String)
       (engServiceType : Option String) (projectId : Option Int),
       sentenceRecognize env c std http now [] voiceFormat engServiceType projectId =
         (.error (.valueError "Audio data is empty"), [])) ∧
    (∀ (env : AsrEnv) (c : Crypto) (std : PyStdlib)
       (http : List Nat → List (String × String) → Except String HttpResp)
       (now : Int) (data : List Nat) (voiceFormat : String)
       (engServiceType : Option String) (projectId : Option Int),
       data ≠ [] →
       (pyStrip (env.tencentSecretId.getD "") = "" ∨ pyStrip (env.tencentSecretKey.getD "") = "") →
       sentenceRecognize env c std http now data voiceFormat engServiceType projectId =
         (.error (.runtimeError
           "Missing Tencent Cloud credentials: set TENCENT_SECRET_ID and TENCENT_SECRET_KEY"), [])) := by
  constructor
  · intro env c std http now vf eng pid
    rfl
  · intro env c std http now data vf eng pid hdata hcred
    unfold sentenceRecognize
    have h1 : data.isEmpty = false := by
      cases data
      · exact absurd rfl hdata
      · rfl
    have h2 : (pyStrip (env.tencentSecretId.getD "") == ""
        || pyStrip (env.tencentSecretKey.getD "") == "") = true := by
      rcases hcred with h | h <;> simp [h]
    simp [h1, h2]

/-- Witness for C8: concrete calls with a 0-byte buffer and with missing
credentials. -/
theorem C8_config_errors_before_network_witness :
    sentenceRecognize asrEnv0 crypto0 std0 http0 0 [] "mp3" none none =
      (.error (.valueError "Audio data is empty"), []) ∧
    sentenceRecognize asrEnv0 crypto0 std0 http0 0 [9] "mp3" none none =
      (.error (.runtimeError
        "Missing Tencent Cloud credentials: set TENCENT_SECRET_ID and TENCENT_SECRET_KEY"), []) :=
  ⟨C8_config_errors_before_network.1 asrEnv0 crypto0 std0 http0 0 "mp3" none none,
   C8_config_errors_before_network.2 asrEnv0 crypto0 std0 http0 0 [9] "mp3" none none
     (by decide) (Or.inl (by decide))⟩

end NapMsg
